import Mathlib

/-!
Verification of `scripts/daniel_mock_api.py`, a mock HTTP server exposing
two GET endpoints over fixed sample tables.

The handler `SimpleHandler.do_GET` is embedded as a pure function of
* the server state (the two global tables, threaded explicitly since Python
  globals are mutable),
* the request path, and
* the random draws consumed by `random.uniform` / `random.choice`
  (determinized as explicit inputs: a unit-interval rational for each
  `uniform` call, a natural-number index draw for each `choice` call).

The result records the response sent (`none` models an uncaught Python
exception), the durations passed to `time.sleep` in order, and the state the
handler leaves the globals in.
-/

/-- JSON values as built by the handler. Objects keep their field order,
as Python dicts preserve insertion order. -/
inductive JSON where
  | str (s : String)
  | arr (elems : List JSON)
  | obj (fields : List (String × JSON))

/-- First-match lookup of a field in a JSON object (`none` on non-objects
or missing keys). -/
def lookupField : List (String × JSON) → String → Option JSON
  | [], _ => none
  | (k, v) :: rest, key => if k = key then some v else lookupField rest key

/-- Field lookup on a JSON value. -/
def JSON.lookup : JSON → String → Option JSON
  | .obj fields, key => lookupField fields key
  | _, _ => none

/-- The module-level constant `sample_data`: the two literal classifier
records of the source. -/
def sample_data : List JSON :=
  [ .obj [("labels", .arr [.str "UBC", .str "teen", .str "golf", .str "female"]),
          ("data", .obj [("text", .str "this girl is clearly an avid golf player who regularly goes to <Golf Course Name> on saturdays. They seem to attend UBC.")])],
    .obj [("labels", .arr [.str "UAB", .str "teen", .str "skiing", .str "male", .str "food", .str "travel"]),
          ("data", .obj [("text", .str "this person likes to travel a lot on vacations, especially to ski resorts. They also seem to enjoy trying out different foods and food photography.")])] ]

/-- The class attribute `SimpleHandler.enrichment_samples`: five literal
sentences. -/
def enrichment_samples : List String :=
  [ "Active university student, interested in startups and productivity workflows.",
    "Outdoor enthusiast; frequent posts about hiking, skiing, and mountain photography.",
    "Food lover experimenting with fusion recipes; occasional travel diaries.",
    "Aspiring content creator focused on tech gadgets and workflow optimization.",
    "Golfer on weekends, studies engineering, shares campus club activities." ]

/-- The global tables the handler reads; threaded through the handler so that
(non-)mutation is a theorem rather than an artifact of the embedding. -/
structure ServerState where
  sample_data : List JSON
  enrichment_samples : List String

/-- The state at process start: the two literal tables. -/
def initState : ServerState :=
  { sample_data := sample_data, enrichment_samples := enrichment_samples }

/-- Model of `random.uniform a b = a + (b - a) * random()`, with the unit draw
`r` (the value of `random()`, in `[0,1)`) supplied as an input.
Modelled over the rationals; IEEE-754 rounding is not modelled. -/
def uniform (a b r : ℚ) : ℚ := a + (b - a) * r

/-- Model of `random.choice seq`, which returns `seq[i]` for a uniformly random index
`i < len(seq)`; the draw is determinized as an arbitrary natural `i` reduced
modulo the length. `none` models the exception raised on an empty sequence. -/
def choice {α : Type} (l : List α) (i : Nat) : Option α :=
  l.get? (i % l.length)

/-- One HTTP response: status line, headers in send order, and the payload
passed to `json.dumps` (serialization itself is not modelled). -/
structure Response where
  status : Nat
  headers : List (String × String)
  body : JSON

/-- Embedding of `SimpleHandler._json`: send the status, the two fixed headers, then the
JSON-encoded payload. -/
def handlerJson (status : Nat) (payload : JSON) : Response :=
  { status := status,
    headers := [("Content-type", "application/json"),
                ("Access-Control-Allow-Origin", "*")],
    body := payload }

/-- ASCII lower-casing of a character, for case-insensitive header-name
comparison. -/
def lowerChar (c : Char) : Char :=
  if 'A' ≤ c ∧ c ≤ 'Z' then Char.ofNat (c.toNat + 32) else c

/-- A header field name, lower-cased. -/
def lowerName (s : String) : List Char := s.data.map lowerChar

/-- A response carries header `name: value`, comparing header field names
case-insensitively as HTTP does. -/
def hasHeader (r : Response) (name value : String) : Bool :=
  r.headers.any (fun p => lowerName p.1 == lowerName name && p.2 == value)

/-- Embedding of `re.match(r'^/<route>([^/]+)$', path)` where `pre` is the
literal route text up to and including the final `/`: the match succeeds
exactly when `path` is `pre` followed by a nonempty run of non-`/`
characters, and the (greedy) capture is that whole remainder.  (`$` also
matches just before a trailing newline, but since `[^/]+` matches newlines
greedily the match set and the capture are unchanged.) -/
def stripRoute : List Char → List Char → Option (List Char)
  | [], rest => some rest
  | _ :: _, [] => none
  | p :: ps, c :: cs => if c = p then stripRoute ps cs else none

/-- Whether a captured segment contains no `/`. -/
def noSlash (cs : List Char) : Bool := cs.all (fun c => c ≠ '/')

/-- Match of one of the two anchored single-segment patterns against a
path, returning the captured group. -/
def reMatchSeg (pre path : String) : Option String :=
  match stripRoute pre.data path.data with
  | none => none
  | some rest => if rest ≠ [] ∧ noSlash rest then some (String.mk rest) else none

/-- Embedding of the classifier pattern match on the request path. -/
def match_classifier (path : String) : Option String :=
  reMatchSeg "/profile-instagram-user/" path

/-- Embedding of the enrichment pattern match on the request path. -/
def match_enrich (path : String) : Option String :=
  reMatchSeg "/enrich-profile/" path

/-- Python dict update as performed by `{**result, k: v}`: if `k` is already
a key its value is replaced in place, otherwise `(k, v)` is appended. -/
def dictUpdate (fields : List (String × JSON)) (k : String) (v : JSON) :
    List (String × JSON) :=
  if (fields.map Prod.fst).contains k then
    fields.map (fun p => if p.1 = k then (k, v) else p)
  else fields ++ [(k, v)]

/-- The merge `{**result, "username": username}` — builds a fresh object; `none`
models the `TypeError` raised when `result` is not a dict. -/
def mergeUsername (result : JSON) (u : String) : Option JSON :=
  match result with
  | .obj fields => some (.obj (dictUpdate fields "username" (.str u)))
  | _ => none

/-- The random draws a single request may consume. -/
structure Draws where
  classifierSleepU : ℚ
  classifierPick : Nat
  enrichSleepU : ℚ
  enrichPick : Nat

/-- Everything one call of the handler does: the response written (`none`
models an uncaught exception), the durations passed to `time.sleep` in
order, and the global state left behind. -/
structure HandlerResult where
  response : Option Response
  sleeps : List ℚ
  state : ServerState

/-- Embedding of `SimpleHandler.do_GET`: match the two patterns in order; on the
classifier pattern sleep `uniform(1.5, 2.5)`, pick a random sample record
and respond 200 with the record merged with the username; on the enrichment
pattern sleep `uniform(0.4, 0.9)` and respond 200 with
`{username, raw_text}`; otherwise respond 404 `{"error": "Not Found"}`. -/
def do_GET (st : ServerState) (path : String) (d : Draws) : HandlerResult :=
  match match_classifier path with
  | some username =>
    let dur := uniform 1.5 2.5 d.classifierSleepU
    match choice st.sample_data d.classifierPick with
    | none => ⟨none, [dur], st⟩
    | some result =>
      match mergeUsername result username with
      | none => ⟨none, [dur], st⟩
      | some merged => ⟨some (handlerJson 200 merged), [dur], st⟩
  | none =>
    match match_enrich path with
    | some username =>
      let dur := uniform 0.4 0.9 d.enrichSleepU
      match choice st.enrichment_samples d.enrichPick with
      | none => ⟨none, [dur], st⟩
      | some raw_text =>
        ⟨some (handlerJson 200
            (.obj [("username", .str username), ("raw_text", .str raw_text)])),
          [dur], st⟩
    | none => ⟨some (handlerJson 404 (.obj [("error", .str "Not Found")])), [], st⟩

/-- Replace the value of the `username` field of a JSON object, leaving every
other field unchanged (used only to state that two responses agree up to
their `username` field). -/
def setUsername (b : JSON) (u : String) : JSON :=
  match b with
  | .obj fields =>
    .obj (fields.map (fun p => if p.1 = "username" then (p.1, JSON.str u) else p))
  | x => x

/-- A fixed tuple of draws, used to instantiate universally quantified
theorems at a concrete input. -/
def d0 : Draws := ⟨0, 0, 0, 0⟩

/-- A path cannot match both routes: any path beginning with
`/profile-instagram-user/` does not begin with `/enrich-profile/`, the two
literals differing at character index 1. -/
theorem match_enrich_not_classifier (path u : String)
    (h : match_enrich path = some u) : match_classifier path = none := by
  rcases hc : match_classifier path with _ | v
  · rfl
  · exfalso
    simp only [match_classifier, match_enrich, reMatchSeg] at hc h
    rcases hsc : stripRoute "/profile-instagram-user/".data path.data with _ | rc <;>
      rw [hsc] at hc
    · exact Option.noConfusion hc
    rcases hse : stripRoute "/enrich-profile/".data path.data with _ | re <;>
      rw [hse] at h
    · exact Option.noConfusion h
    have key : ∀ (a rest₁ rest₂ : List Char), stripRoute a rest₁ = some rest₂ →
        rest₁ = a ++ rest₂ := by
      intro a
      induction a with
      | nil => intro r₁ r₂ hs; simpa [stripRoute] using hs
      | cons c cs ih =>
        intro r₁ r₂ hs
        cases r₁ with
        | nil => exact absurd hs (by simp [stripRoute])
        | cons x xs =>
          simp only [stripRoute] at hs
          split at hs
          · next heq => subst heq; simpa using ih xs r₂ hs
          · exact absurd hs (by simp)
    have h1 := key "/profile-instagram-user/".data path.data rc hsc
    have h2 := key "/enrich-profile/".data path.data re hse
    rw [h1] at h2
    have : ("/profile-instagram-user/".data ++ rc).get? 1 =
           ("/enrich-profile/".data ++ re).get? 1 := by rw [← h2]
    simp [List.get?] at this

/-- On the literal classifier table, `random.choice` always succeeds and
returns a member of the table. -/
theorem choice_sample_data_some (i : Nat) :
    ∃ r, choice sample_data i = some r ∧ r ∈ sample_data := by
  rcases hc : choice sample_data i with _ | r
  · exfalso
    have hpos : 0 < sample_data.length := by simp [sample_data]
    have hlt := Nat.mod_lt i hpos
    simp only [choice] at hc
    have := List.get?_eq_none.mp hc
    omega
  · exact ⟨r, rfl, List.get?_mem (by simpa only [choice] using hc)⟩

/-- On the literal enrichment table, `random.choice` always succeeds and
returns a member of the table. -/
theorem choice_enrichment_some (i : Nat) :
    ∃ s, choice enrichment_samples i = some s ∧ s ∈ enrichment_samples := by
  rcases hc : choice enrichment_samples i with _ | s
  · exfalso
    have hpos : 0 < enrichment_samples.length := by simp [enrichment_samples]
    have hlt := Nat.mod_lt i hpos
    simp only [choice] at hc
    have := List.get?_eq_none.mp hc
    omega
  · exact ⟨s, rfl, List.get?_mem (by simpa only [choice] using hc)⟩

/-- C1: a path matching `^/profile-instagram-user/([^/]+)$` with capture `u`
gets a 200 response whose body is one of the two fixed sample records merged
with a `username` field equal to `u`, the `labels` and `data` fields of the
record unchanged. -/
theorem classifier_ok (path u : String) (d : Draws)
    (h : match_classifier path = some u) :
    ∃ rec b, rec ∈ sample_data ∧ mergeUsername rec u = some b ∧
      (do_GET initState path d).response = some (handlerJson 200 b) ∧
      b.lookup "username" = some (.str u) ∧
      b.lookup "labels" = rec.lookup "labels" ∧
      b.lookup "data" = rec.lookup "data" := by
  rcases Nat.mod_two_eq_zero_or_one d.classifierPick with hp | hp
  · refine ⟨sample_data.get ⟨0, by simp [sample_data]⟩, _, by simp [sample_data], rfl, ?_, rfl, rfl, rfl⟩
    simp [do_GET, h, choice, initState, sample_data, hp, mergeUsername, dictUpdate, handlerJson]
  · refine ⟨sample_data.get ⟨1, by simp [sample_data]⟩, _, by simp [sample_data], rfl, ?_, rfl, rfl, rfl⟩
    simp [do_GET, h, choice, initState, sample_data, hp, mergeUsername, dictUpdate, handlerJson]

/-- Witness for C1 at the concrete path `/profile-instagram-user/daniel`. -/
theorem classifier_ok_witness :
    ∃ rec b, rec ∈ sample_data ∧ mergeUsername rec "daniel" = some b ∧
      (do_GET initState "/profile-instagram-user/daniel" d0).response = some (handlerJson 200 b) ∧
      b.lookup "username" = some (.str "daniel") ∧
      b.lookup "labels" = rec.lookup "labels" ∧
      b.lookup "data" = rec.lookup "data" :=
  classifier_ok "/profile-instagram-user/daniel" "daniel" d0 rfl

/-- C2: a path matching `^/enrich-profile/([^/]+)$` with capture `u` gets a
200 response whose body has exactly the fields `username = u` and
`raw_text`, the latter one of the five fixed enrichment sentences. -/
theorem enrich_ok (path u : String) (d : Draws)
    (h : match_enrich path = some u) :
    ∃ s, s ∈ enrichment_samples ∧
      (do_GET initState path d).response =
        some (handlerJson 200 (.obj [("username", .str u), ("raw_text", .str s)])) := by
  have hnc : match_classifier path = none := match_enrich_not_classifier path u h
  rcases hc : choice initState.enrichment_samples d.enrichPick with _ | s
  · exfalso
    have hlt : d.enrichPick % initState.enrichment_samples.length <
        initState.enrichment_samples.length :=
      Nat.mod_lt _ (by simp [initState, enrichment_samples])
    simp only [choice] at hc
    have := List.get?_eq_none.mp hc
    omega
  · refine ⟨s, ?_, ?_⟩
    · simp only [choice] at hc
      have := List.get?_mem hc
      simpa [initState] using this
    · simp [do_GET, h, hnc, hc]

/-- Witness for C2 at the concrete path `/enrich-profile/daniel`. -/
theorem enrich_ok_witness :
    ∃ s, s ∈ enrichment_samples ∧
      (do_GET initState "/enrich-profile/daniel" d0).response =
        some (handlerJson 200 (.obj [("username", .str "daniel"), ("raw_text", .str s)])) :=
  enrich_ok "/enrich-profile/daniel" "daniel" d0 rfl

/-- C3: a path matching neither pattern gets exactly the 404 response with
body `{"error": "Not Found"}`. -/
theorem not_found_ok (path : String) (d : Draws)
    (h1 : match_classifier path = none) (h2 : match_enrich path = none) :
    (do_GET initState path d).response =
      some (handlerJson 404 (.obj [("error", .str "Not Found")])) := by
  simp [do_GET, h1, h2]

/-- Witness for C3 at the concrete paths `/`, `/foo` and
`/profile-instagram-user/a/b` (the third discharged for both patterns). -/
theorem not_found_ok_witness :
    (do_GET initState "/" d0).response =
      some (handlerJson 404 (.obj [("error", .str "Not Found")])) ∧
    (do_GET initState "/foo" d0).response =
      some (handlerJson 404 (.obj [("error", .str "Not Found")])) ∧
    (do_GET initState "/profile-instagram-user/a/b" d0).response =
      some (handlerJson 404 (.obj [("error", .str "Not Found")])) :=
  ⟨not_found_ok "/" d0 rfl rfl,
   not_found_ok "/foo" d0 rfl rfl,
   not_found_ok "/profile-instagram-user/a/b" d0 (by decide) rfl⟩

/-- Every response built by `SimpleHandler._json` carries the CORS header. -/
theorem handlerJson_cors (s : Nat) (p : JSON) :
    hasHeader (handlerJson s p) "Access-Control-Allow-Origin" "*" = true := rfl

/-- Every response built by `SimpleHandler._json` carries
`Content-Type: application/json` (sent as `Content-type`; HTTP header names
are case-insensitive). -/
theorem handlerJson_content_type (s : Nat) (p : JSON) :
    hasHeader (handlerJson s p) "Content-Type" "application/json" = true := rfl

/-- C4: every response the handler produces, for any state, path and draws,
carries the header `Access-Control-Allow-Origin: *`. -/
theorem cors_all_responses (st : ServerState) (path : String) (d : Draws)
    (r : Response) (h : (do_GET st path d).response = some r) :
    hasHeader r "Access-Control-Allow-Origin" "*" = true := by
  unfold do_GET at h
  repeat' split at h
  all_goals simp_all
  all_goals (subst h; exact handlerJson_cors _ _)

/-- Witness for C4 at the concrete path `/` (a 404 response). -/
theorem cors_all_responses_witness :
    hasHeader (handlerJson 404 (.obj [("error", .str "Not Found")]))
      "Access-Control-Allow-Origin" "*" = true :=
  cors_all_responses initState "/" d0 _ rfl

/-- C6: the handler sleeps exactly when the path matches one of the two
patterns — an unmatched path gets its 404 with no sleep at all, and each
matched path sleeps once. -/
theorem sleep_only_on_match (st : ServerState) (path : String) (d : Draws) :
    (do_GET st path d).sleeps = [] ↔
      (match_classifier path = none ∧ match_enrich path = none) := by
  unfold do_GET
  repeat' split
  all_goals simp_all

/-- C7: handling any request leaves the global tables (the sample records
and the enrichment sentences) exactly as they were: the handler never
mutates them. -/
theorem state_unchanged (st : ServerState) (path : String) (d : Draws) :
    (do_GET st path d).state = st := by
  unfold do_GET
  repeat' split
  all_goals rfl

/-- C9: every response the handler produces — the 404 responses included,
since the shared `_json` helper sets the same headers for every status —
carries `Content-Type: application/json` (sent as `Content-type`; HTTP
header field names are case-insensitive). -/
theorem content_type_all_responses (st : ServerState) (path : String)
    (d : Draws) (r : Response) (h : (do_GET st path d).response = some r) :
    hasHeader r "Content-Type" "application/json" = true := by
  unfold do_GET at h
  repeat' split at h
  all_goals simp_all
  all_goals (subst h; exact handlerJson_content_type _ _)

/-- Witness for C9 at the concrete path `/` (a 404 response). -/
theorem content_type_all_responses_witness :
    hasHeader (handlerJson 404 (.obj [("error", .str "Not Found")]))
      "Content-Type" "application/json" = true :=
  content_type_all_responses initState "/" d0 _ rfl

/-- C10: a path consisting of a route prefix with an empty final segment
matches neither pattern (each regex requires at least one non-`/` character
after the prefix), so it receives the 404 response. -/
theorem empty_segment_404 (st : ServerState) (d : Draws) :
    match_classifier "/profile-instagram-user/" = none ∧
    match_enrich "/profile-instagram-user/" = none ∧
    match_classifier "/enrich-profile/" = none ∧
    match_enrich "/enrich-profile/" = none ∧
    (do_GET st "/profile-instagram-user/" d).response =
      some (handlerJson 404 (.obj [("error", .str "Not Found")])) ∧
    (do_GET st "/enrich-profile/" d).response =
      some (handlerJson 404 (.obj [("error", .str "Not Found")])) :=
  ⟨rfl, rfl, rfl, rfl, rfl, rfl⟩

/-- C8: the username is never validated or inspected: two requests to the
same endpoint with the same draws produce the same sleep durations, status
and headers, and bodies that agree except that the `username` field carries
each request's own captured segment. -/
theorem username_noninterference (d : Draws) (p1 p2 u1 u2 : String)
    (h : (match_classifier p1 = some u1 ∧ match_classifier p2 = some u2) ∨
         (match_enrich p1 = some u1 ∧ match_enrich p2 = some u2)) :
    (do_GET initState p1 d).sleeps = (do_GET initState p2 d).sleeps ∧
    ((do_GET initState p1 d).response).map Response.status =
      ((do_GET initState p2 d).response).map Response.status ∧
    ((do_GET initState p1 d).response).map Response.headers =
      ((do_GET initState p2 d).response).map Response.headers ∧
    ((do_GET initState p1 d).response).map (fun r => r.body.lookup "username") =
      some (some (.str u1)) ∧
    ((do_GET initState p2 d).response).map (fun r => r.body.lookup "username") =
      some (some (.str u2)) ∧
    ((do_GET initState p1 d).response).map (fun r => setUsername r.body u2) =
      ((do_GET initState p2 d).response).map Response.body := by
  rcases h with ⟨h1, h2⟩ | ⟨h1, h2⟩
  · obtain ⟨r, hc, hmem⟩ := choice_sample_data_some d.classifierPick
    have hc' : choice initState.sample_data d.classifierPick = some r := hc
    simp only [sample_data, List.mem_cons, List.mem_singleton, List.not_mem_nil,
      or_false] at hmem
    rcases hmem with hr | hr <;> subst hr <;>
      simp [do_GET, h1, h2, hc', mergeUsername, dictUpdate, setUsername,
        JSON.lookup, lookupField, handlerJson]
  · have hnc1 : match_classifier p1 = none := match_enrich_not_classifier p1 u1 h1
    have hnc2 : match_classifier p2 = none := match_enrich_not_classifier p2 u2 h2
    obtain ⟨s, hc, _⟩ := choice_enrichment_some d.enrichPick
    have hc' : choice initState.enrichment_samples d.enrichPick = some s := hc
    simp [do_GET, h1, h2, hnc1, hnc2, hc', setUsername, JSON.lookup,
      lookupField, handlerJson]

/-- Witness for C8 at the concrete paths `/profile-instagram-user/alice`
and `/profile-instagram-user/bob`. -/
theorem username_noninterference_witness :
    (do_GET initState "/profile-instagram-user/alice" d0).sleeps =
      (do_GET initState "/profile-instagram-user/bob" d0).sleeps ∧
    ((do_GET initState "/profile-instagram-user/alice" d0).response).map Response.status =
      ((do_GET initState "/profile-instagram-user/bob" d0).response).map Response.status ∧
    ((do_GET initState "/profile-instagram-user/alice" d0).response).map Response.headers =
      ((do_GET initState "/profile-instagram-user/bob" d0).response).map Response.headers ∧
    ((do_GET initState "/profile-instagram-user/alice" d0).response).map
        (fun r => r.body.lookup "username") = some (some (.str "alice")) ∧
    ((do_GET initState "/profile-instagram-user/bob" d0).response).map
        (fun r => r.body.lookup "username") = some (some (.str "bob")) ∧
    ((do_GET initState "/profile-instagram-user/alice" d0).response).map
        (fun r => setUsername r.body "bob") =
      ((do_GET initState "/profile-instagram-user/bob" d0).response).map Response.body :=
  username_noninterference d0 "/profile-instagram-user/alice"
    "/profile-instagram-user/bob" "alice" "bob" (Or.inl ⟨rfl, rfl⟩)
